import Mathlib

/-!
Verification of the tokenomics calculator engine (BuyerCalculator).

The engine is embedded shallowly over the real numbers: the five formula
functions, the sequential mint accumulator (a fold carrying the global and
the user cumulative mint), the burn accumulator, and the result-composition
step are translated directly from the source component.
-/

/-- System parameters (constants), translated from the source interface. -/
structure SystemParams where
  CB_base : ℝ
  alpha : ℝ
  beta : ℝ
  gamma : ℝ
  P0 : ℝ
  k : ℝ
  discount_base : ℝ
  theta : ℝ
  burn_cap : ℝ
  access_fee : ℝ
  user_cap : ℝ
  t_launch : ℝ

/-- User input parameters.  The purchase count is validated to be an
integer of at least 1 in the UI, so it is carried as a natural number
(the loop bound); all other fields are real scalars. -/
structure UserInputs where
  purchasePrice : ℝ
  numberOfPurchases : ℕ
  period : ℝ
  reviewQuality : ℝ
  returnProbability : ℝ

/-- Market simulation constant: number of similar users. -/
def ASSUMED_USERS : ℝ := 100

/-- Market simulation constant: assumed burn rate. -/
def ASSUMED_BURN_RATE : ℝ := 0.3

/-- Market simulation constant: initial global token supply. -/
def INITIAL_GLOBAL_MINTED : ℝ := 10000

/-- Default system parameters from the source. -/
noncomputable def DEFAULT_SYSTEM_PARAMS : SystemParams :=
  { CB_base := 0.05
    alpha := 0.01
    beta := 0.3
    gamma := 0.5
    P0 := 1.0
    k := 0.0001
    discount_base := 0.1
    theta := 0.006
    burn_cap := 1000000
    access_fee := 10
    user_cap := 10000
    t_launch := 0 }

/-- Cashback percentage at time t. -/
noncomputable def calculateCashbackPercent (t : ℝ) (params : SystemParams) : ℝ :=
  max 0 (params.CB_base * (1 - params.alpha * (t - params.t_launch)))

/-- Quality factor for a purchase. -/
noncomputable def calculateQualityFactor (returnProbability reviewQuality : ℝ)
    (params : SystemParams) : ℝ :=
  1 + params.beta * (1 - returnProbability) * reviewQuality

/-- Diminishing factor at a given user cumulative mint. -/
noncomputable def calculateDiminishingFactor (totalMintedUser : ℝ)
    (params : SystemParams) : ℝ :=
  Real.exp (-params.gamma * (totalMintedUser / params.user_cap))

/-- Token price on the bonding curve at a given global supply. -/
noncomputable def calculateTokenPrice (totalMinted : ℝ) (params : SystemParams) : ℝ :=
  params.P0 * (1 + params.k * totalMinted ^ 2)

/-- Discount percentage given the market-wide burn this year. -/
noncomputable def calculateDiscountPercent (burnedYear : ℝ) (params : SystemParams) : ℝ :=
  max 0 (params.discount_base * (1 - params.theta * (burnedYear / params.burn_cap)))

/-- One iteration of the mint loop: the state is the pair
(currentGlobalTotalMinted, totalMintedUser), updated exactly as the loop
body of calculateMintedTokens does. -/
noncomputable def mintStep (inputs : UserInputs) (params : SystemParams) (t : ℝ)
    (state : ℝ × ℝ) : ℝ × ℝ :=
  let CB_percent := calculateCashbackPercent t params
  let QFi := calculateQualityFactor inputs.returnProbability inputs.reviewQuality params
  let DF := calculateDiminishingFactor state.2 params
  let Ptoken := calculateTokenPrice state.1 params
  let mintedForPurchase := inputs.purchasePrice * CB_percent * QFi * DF / Ptoken
  (state.1 + mintedForPurchase, state.2 + mintedForPurchase)

/-- State of the mint loop after n iterations, starting from
(globalTotalMinted, 0). -/
noncomputable def mintLoop (inputs : UserInputs) (params : SystemParams) (t : ℝ)
    (globalTotalMinted : ℝ) : ℕ → ℝ × ℝ
  | 0 => (globalTotalMinted, 0)
  | n + 1 => mintStep inputs params t (mintLoop inputs params t globalTotalMinted n)

/-- Return record of calculateMintedTokens. -/
structure MintResult where
  totalMintedUser : ℝ
  newGlobalTotalMinted : ℝ
  dfFirst : ℝ
  dfLast : ℝ
  mintedPerPurchaseAvg : ℝ

/-- Minted tokens for the user: run the sequential loop numberOfPurchases
times at the truncated period, record the diminishing factor at zero mint
and after the last purchase, and the per-purchase average. -/
noncomputable def calculateMintedTokens (inputs : UserInputs) (params : SystemParams)
    (globalTotalMinted : ℝ) : MintResult :=
  let t : ℝ := ((⌊inputs.period⌋ : ℤ) : ℝ)
  let dfFirst := calculateDiminishingFactor 0 params
  let final := mintLoop inputs params t globalTotalMinted inputs.numberOfPurchases
  { totalMintedUser := final.2
    newGlobalTotalMinted := final.1
    dfFirst := dfFirst
    dfLast := calculateDiminishingFactor final.2 params
    mintedPerPurchaseAvg := final.2 / (inputs.numberOfPurchases : ℝ) }

/-- Burn loop: numberOfPurchases iterations, each adding the discount in
currency divided by the (fixed) token price. -/
noncomputable def burnLoop (inputs : UserInputs) (discount_percent tokenPrice : ℝ) :
    ℕ → ℝ
  | 0 => 0
  | n + 1 => burnLoop inputs discount_percent tokenPrice n +
      inputs.purchasePrice * discount_percent / tokenPrice

/-- Burned tokens for the user: the discount percentage and the token
price are fixed across the loop, and the flat access fee is added once. -/
noncomputable def calculateBurnedTokens (inputs : UserInputs) (params : SystemParams)
    (burnedYear tokenPrice : ℝ) : ℝ :=
  let discount_percent := calculateDiscountPercent burnedYear params
  burnLoop inputs discount_percent tokenPrice inputs.numberOfPurchases +
    params.access_fee

/-- Breakdown sub-record of the results. -/
structure Breakdown where
  t : ℝ
  CB_percent : ℝ
  QF : ℝ
  dfFirst : ℝ
  dfLast : ℝ
  mintedPerPurchaseAvg : ℝ
  capUsage : ℝ
  discount_percent : ℝ
  discountRubTotal : ℝ
  burnDiscountTokens : ℝ
  accessFeeTokens : ℝ
  netValueRub : ℝ
  effectiveCashbackRub : ℝ
  effectiveDiscountRub : ℝ
  initialGlobalTotalMinted : ℝ
  assumedUsers : ℝ
  assumedBurnRate : ℝ
  newGlobalTotalMinted : ℝ

/-- Results record produced by the engine. -/
structure Results where
  totalMintedUser : ℝ
  tokenPrice : ℝ
  totalBurned : ℝ
  burnDestroyed : ℝ
  burnRedistributed : ℝ
  netTokens : ℝ
  breakdown : Breakdown

/-- Result composition, translated from the useMemo block of the source. -/
noncomputable def results (userInputs : UserInputs) (systemParams : SystemParams) :
    Results :=
  let initialGlobalTotalMinted := INITIAL_GLOBAL_MINTED
  let t : ℝ := ((⌊userInputs.period⌋ : ℤ) : ℝ)
  let mintResult := calculateMintedTokens userInputs systemParams initialGlobalTotalMinted
  let totalMintedUser := mintResult.totalMintedUser
  let newGlobalTotalMinted := initialGlobalTotalMinted + totalMintedUser * ASSUMED_USERS
  let tokenPrice := calculateTokenPrice newGlobalTotalMinted systemParams
  let assumedMarketBurnedYearTokens := totalMintedUser * ASSUMED_BURN_RATE * ASSUMED_USERS
  let totalBurned := calculateBurnedTokens userInputs systemParams
    assumedMarketBurnedYearTokens tokenPrice
  let burnDestroyed := totalBurned * 0.7
  let burnRedistributed := totalBurned * 0.3
  let CB_percent := calculateCashbackPercent t systemParams
  let QF := calculateQualityFactor userInputs.returnProbability
    userInputs.reviewQuality systemParams
  let capUsage := totalMintedUser / systemParams.user_cap
  let discount_percent := calculateDiscountPercent assumedMarketBurnedYearTokens systemParams
  let discountRubTotal := userInputs.purchasePrice *
    (userInputs.numberOfPurchases : ℝ) * discount_percent
  let burnDiscountTokens := discountRubTotal / tokenPrice
  let accessFeeTokens := systemParams.access_fee
  let netValueRub := (totalMintedUser - totalBurned) * tokenPrice
  let effectiveCashbackRub := totalMintedUser * tokenPrice
  let effectiveDiscountRub := totalBurned * tokenPrice
  { totalMintedUser := totalMintedUser
    tokenPrice := tokenPrice
    totalBurned := totalBurned
    burnDestroyed := burnDestroyed
    burnRedistributed := burnRedistributed
    netTokens := totalMintedUser - totalBurned
    breakdown :=
      { t := t
        CB_percent := CB_percent
        QF := QF
        dfFirst := mintResult.dfFirst
        dfLast := mintResult.dfLast
        mintedPerPurchaseAvg := mintResult.mintedPerPurchaseAvg
        capUsage := capUsage
        discount_percent := discount_percent
        discountRubTotal := discountRubTotal
        burnDiscountTokens := burnDiscountTokens
        accessFeeTokens := accessFeeTokens
        netValueRub := netValueRub
        effectiveCashbackRub := effectiveCashbackRub
        effectiveDiscountRub := effectiveDiscountRub
        initialGlobalTotalMinted := initialGlobalTotalMinted
        assumedUsers := ASSUMED_USERS
        assumedBurnRate := ASSUMED_BURN_RATE
        newGlobalTotalMinted := newGlobalTotalMinted } }

/-- Scalar form of the mint recursion: both loop accumulators move by the
same increment, so the whole loop is determined by the user cumulative
mint u, with the global supply equal to g0 + u.  Here B is the constant
numerator factor divided by P0, M is gamma / user_cap and kk is the
bonding-curve coefficient. -/
noncomputable def dSeq (B M kk g0 : ℝ) : ℕ → ℝ
  | 0 => 0
  | n + 1 =>
    dSeq B M kk g0 n +
      B * (Real.exp (-(M * dSeq B M kk g0 n)) /
        (1 + kk * (g0 + dSeq B M kk g0 n)^2))

/-- Mint fold as described by the specification: a sequential fold over
the purchase index carrying the pair (userCumulativeMint,
globalCumulativeMint), starting from (0, globalTotalMintedBefore); each
iteration mints purchasePrice * CashbackPercent(floor period) *
QualityFactor * DiminishingFactor(userCumulativeMint) /
TokenPrice(globalCumulativeMint) and adds the amount to both
accumulators. -/
noncomputable def specMintFold (inputs : UserInputs) (params : SystemParams)
    (globalTotalMintedBefore : ℝ) : ℕ → ℝ × ℝ
  | 0 => (0, globalTotalMintedBefore)
  | i + 1 =>
    let acc := specMintFold inputs params globalTotalMintedBefore i
    let minted := inputs.purchasePrice *
        calculateCashbackPercent ((⌊inputs.period⌋ : ℤ) : ℝ) params *
        calculateQualityFactor inputs.returnProbability inputs.reviewQuality params *
        calculateDiminishingFactor acc.1 params /
        calculateTokenPrice acc.2 params
    (acc.1 + minted, acc.2 + minted)

/-- Default parameters with a zero access fee (still inside the documented
parameter domain, where every parameter is a non-negative real). -/
noncomputable def zeroFeeParams : SystemParams :=
  { DEFAULT_SYSTEM_PARAMS with access_fee := 0 }

/-- Polynomial certificate behind the diminishing-step bound: for
0 ≤ b ≤ a ≤ c the product 2(a-b)(a+c)(1+b^2) stays below (1+a^2)(1+c^2). -/
theorem bonding_poly_bound (a b c : ℝ) (hb : 0 ≤ b) (hba : b ≤ a) (hac : a ≤ c) :
    2*(a-b)*(a+c)*(1+b^2) ≤ (1+a^2)*(1+c^2) := by
  have ha : 0 ≤ a := le_trans hb hba
  have hid : (1+a^2)*(1+c^2) - 2*(a-b)*(a+c)*(1+b^2) =
      (a^2 - 1 - 2*a*b)^2
      + (c-a) * (2*a^2*(a-b) + 2*b*(1+a*b) + (c-a)*(1+a^2))
      + 2*b*(a-b)^2*(a+c) := by ring
  have h1 : 0 ≤ (a^2 - 1 - 2*a*b)^2 := sq_nonneg _
  have hbr : 0 ≤ 2*a^2*(a-b) + 2*b*(1+a*b) + (c-a)*(1+a^2) := by
    have i1 : 0 ≤ 2*a^2*(a-b) := by
      have h : (0:ℝ) ≤ a - b := by linarith
      positivity
    have i2 : 0 ≤ 2*b*(1+a*b) := by
      have h : (0:ℝ) ≤ a*b := mul_nonneg ha hb
      nlinarith
    have i3 : 0 ≤ (c-a)*(1+a^2) := by
      have h : (0:ℝ) ≤ c - a := by linarith
      positivity
    linarith
  have h2 : 0 ≤ (c-a) * (2*a^2*(a-b) + 2*b*(1+a*b) + (c-a)*(1+a^2)) :=
    mul_nonneg (by linarith) hbr
  have h3 : 0 ≤ 2*b*(a-b)^2*(a+c) := by
    have h : (0:ℝ) ≤ a + c := by linarith
    have h2 : (0:ℝ) ≤ (a-b)^2 := sq_nonneg _
    positivity
  linarith

/-- Substituted form of the polynomial certificate, in terms of the
bonding-curve coefficient kk and supply levels g0 ≤ y ≤ z. -/
theorem bonding_poly_bound_supply (kk g0 y z : ℝ) (hk : 0 ≤ kk) (hg : 0 ≤ g0)
    (hgy : g0 ≤ y) (hyz : y ≤ z) :
    2*kk*(y - g0)*(y + z)*(1 + kk*g0^2) ≤ (1 + kk*y^2)*(1 + kk*z^2) := by
  set r := Real.sqrt kk with hr
  have hrnn : 0 ≤ r := Real.sqrt_nonneg kk
  have hrsq : r^2 = kk := Real.sq_sqrt hk
  have hb : 0 ≤ r*g0 := mul_nonneg hrnn hg
  have hba : r*g0 ≤ r*y := mul_le_mul_of_nonneg_left hgy hrnn
  have hac : r*y ≤ r*z := mul_le_mul_of_nonneg_left hyz hrnn
  have h := bonding_poly_bound (r*y) (r*g0) (r*z) hb hba hac
  rw [← hrsq]
  nlinarith [h]

/-- Standard bound x e^(-x) ≤ 1/2, used to control the exponential part
of the diminishing factor along the reachable states of the mint loop. -/
theorem mul_exp_neg_le_half (x : ℝ) : x * Real.exp (-x) ≤ 1/2 := by
  have hp := Real.exp_pos x
  have h2x : 2*x ≤ Real.exp x := by
    rcases le_or_lt x 0 with hx | hx
    · linarith
    · have h1 : (0:ℝ) ≤ 1 + x/2 := by linarith
      have h2 : 1 + x/2 ≤ Real.exp (x/2) := by
        have := Real.add_one_le_exp (x/2)
        linarith
      have h3 : (1 + x/2)^2 ≤ Real.exp (x/2) ^ 2 := pow_le_pow_left₀ h1 h2 2
      have h4 : Real.exp (x/2) ^ 2 = Real.exp x := by
        rw [sq, ← Real.exp_add]
        norm_num
      nlinarith [sq_nonneg (1 - x/2)]
  rw [Real.exp_neg, ← div_eq_mul_inv, div_le_iff₀ hp]
  linarith

set_option maxHeartbeats 1600000 in
/-- Single-step comparison for the scalar mint recursion: starting no
lower than the first increment B1/(1+kk g0^2), a state u with coefficient
B1 never overtakes a state v ≥ u with coefficient B2 ≥ B1 after one more
purchase.  The decrease of the increment along [u, v] is at most the gap,
half of it from the exponential factor and half from the bonding-curve
denominator. -/
theorem dStep_mono (B1 B2 M kk g0 u v : ℝ)
    (hB1 : 0 ≤ B1) (hB12 : B1 ≤ B2) (hM : 0 ≤ M) (hk : 0 ≤ kk) (hg : 0 ≤ g0)
    (hu : B1 / (1 + kk*g0^2) ≤ u) (huv : u ≤ v) :
    u + B1 * (Real.exp (-(M*u)) / (1 + kk*(g0+u)^2)) ≤
    v + B2 * (Real.exp (-(M*v)) / (1 + kk*(g0+v)^2)) := by
  have hQ0 : (0:ℝ) < 1 + kk*g0^2 := by positivity
  have hQu : (0:ℝ) < 1 + kk*(g0+u)^2 := by positivity
  have hQv : (0:ℝ) < 1 + kk*(g0+v)^2 := by positivity
  have hu0 : 0 ≤ u := le_trans (div_nonneg hB1 hQ0.le) hu
  have hv0 : 0 ≤ v := le_trans hu0 huv
  have hB2 : 0 ≤ B2 := le_trans hB1 hB12
  have hEu : (0:ℝ) < Real.exp (-(M*u)) := Real.exp_pos _
  have hEv : (0:ℝ) < Real.exp (-(M*v)) := Real.exp_pos _
  have hincrv : 0 ≤ B2 * (Real.exp (-(M*v)) / (1 + kk*(g0+v)^2)) :=
    mul_nonneg hB2 (div_nonneg hEv.le hQv.le)
  rcases le_or_lt (B1 * (Real.exp (-(M*u)) / (1 + kk*(g0+u)^2))) (v - u) with hcase | hcase
  · linarith
  · set s := v - u with hs
    have hs0 : 0 ≤ s := by simp [hs]; linarith
    have hB1u : B1 ≤ u * (1 + kk*g0^2) := (div_le_iff₀ hQ0).mp hu
    have hmain : B1 * (Real.exp (-(M*u)) / (1 + kk*(g0+u)^2))
        - B1 * (Real.exp (-(M*v)) / (1 + kk*(g0+v)^2)) ≤ s := by
      have hsplit : Real.exp (-(M*u)) / (1 + kk*(g0+u)^2)
          - Real.exp (-(M*v)) / (1 + kk*(g0+v)^2)
          = (Real.exp (-(M*u)) - Real.exp (-(M*v))) / (1 + kk*(g0+u)^2)
            + Real.exp (-(M*v)) * ((1 + kk*(g0+v)^2) - (1 + kk*(g0+u)^2))
              / ((1 + kk*(g0+u)^2) * (1 + kk*(g0+v)^2)) := by
        field_simp
        ring
      have hpart1 : B1 * ((Real.exp (-(M*u)) - Real.exp (-(M*v))) / (1 + kk*(g0+u)^2))
          ≤ s / 2 := by
        have hEfact : Real.exp (-(M*v)) = Real.exp (-(M*u)) * Real.exp (-(M*s)) := by
          rw [← Real.exp_add]
          congr 1
          simp [hs]
          ring
        have hlin : 1 - Real.exp (-(M*s)) ≤ M*s := by
          have := Real.add_one_le_exp (-(M*s))
          linarith
        have hdiff : Real.exp (-(M*u)) - Real.exp (-(M*v))
            ≤ Real.exp (-(M*u)) * (M*s) := by
          rw [hEfact]
          have : Real.exp (-(M*u)) * (1 - Real.exp (-(M*s)))
              ≤ Real.exp (-(M*u)) * (M*s) :=
            mul_le_mul_of_nonneg_left hlin hEu.le
          linarith
        have hkey := mul_exp_neg_le_half (M * (B1 / (1 + kk*g0^2)))
        have hEmono : Real.exp (-(M*u)) ≤ Real.exp (-(M * (B1 / (1 + kk*g0^2)))) := by
          apply Real.exp_le_exp.mpr
          have : M * (B1 / (1 + kk*g0^2)) ≤ M * u := mul_le_mul_of_nonneg_left hu hM
          linarith
        have hBM : B1 * M * Real.exp (-(M*u)) ≤ (1 + kk*g0^2) / 2 := by
          have h1 : B1 * M * Real.exp (-(M*u))
              ≤ B1 * M * Real.exp (-(M * (B1 / (1 + kk*g0^2)))) := by
            apply mul_le_mul_of_nonneg_left hEmono (mul_nonneg hB1 hM)
          have h2 : B1 * M * Real.exp (-(M * (B1 / (1 + kk*g0^2))))
              = (1 + kk*g0^2) * ((M * (B1 / (1 + kk*g0^2)))
                * Real.exp (-(M * (B1 / (1 + kk*g0^2))))) := by
            field_simp
            ring
          rw [h2] at h1
          have h3 : (1 + kk*g0^2) * ((M * (B1 / (1 + kk*g0^2)))
              * Real.exp (-(M * (B1 / (1 + kk*g0^2))))) ≤ (1 + kk*g0^2) * (1/2) :=
            mul_le_mul_of_nonneg_left hkey hQ0.le
          calc B1 * M * Real.exp (-(M*u)) ≤ _ := h1
            _ ≤ (1 + kk*g0^2) * (1/2) := h3
            _ = (1 + kk*g0^2) / 2 := by ring
        have hQ0Qu : 1 + kk*g0^2 ≤ 1 + kk*(g0+u)^2 := by
          have : g0^2 ≤ (g0+u)^2 := by nlinarith
          nlinarith
        calc B1 * ((Real.exp (-(M*u)) - Real.exp (-(M*v))) / (1 + kk*(g0+u)^2))
            ≤ B1 * ((Real.exp (-(M*u)) * (M*s)) / (1 + kk*(g0+u)^2)) := by
              apply mul_le_mul_of_nonneg_left _ hB1
              apply div_le_div_of_nonneg_right hdiff hQu.le
          _ = (B1 * M * Real.exp (-(M*u))) * s / (1 + kk*(g0+u)^2) := by ring
          _ ≤ ((1 + kk*g0^2) / 2) * s / (1 + kk*(g0+u)^2) := by
              apply div_le_div_of_nonneg_right _ hQu.le
              exact mul_le_mul_of_nonneg_right hBM hs0
          _ ≤ ((1 + kk*(g0+u)^2) / 2) * s / (1 + kk*(g0+u)^2) := by
              apply div_le_div_of_nonneg_right _ hQu.le
              apply mul_le_mul_of_nonneg_right _ hs0
              linarith
          _ = s / 2 := by
              field_simp
              ring
      have hpart2 : B1 * (Real.exp (-(M*v)) * ((1 + kk*(g0+v)^2) - (1 + kk*(g0+u)^2))
          / ((1 + kk*(g0+u)^2) * (1 + kk*(g0+v)^2))) ≤ s / 2 := by
        have hQdiff : (1 + kk*(g0+v)^2) - (1 + kk*(g0+u)^2)
            = kk * s * (2*g0 + u + v) := by
          simp [hs]
          ring
        have hEvle : Real.exp (-(M*v)) ≤ 1 := by
          have : -(M*v) ≤ 0 := by
            have := mul_nonneg hM hv0
            linarith
          calc Real.exp (-(M*v)) ≤ Real.exp 0 := Real.exp_le_exp.mpr this
            _ = 1 := Real.exp_zero
        have hkey4 := bonding_poly_bound_supply kk g0 (g0+u) (g0+v) hk hg
          (by linarith) (by linarith)
        have hkey4b : 2 * (B1 * kk * (2*g0+u+v))
            ≤ (1 + kk*(g0+u)^2) * (1 + kk*(g0+v)^2) := by
          have hmul : 0 ≤ kk * (2*g0+u+v) := by positivity
          have hstep : B1 * (kk * (2*g0+u+v)) ≤ (u * (1 + kk*g0^2)) * (kk * (2*g0+u+v)) :=
            mul_le_mul_of_nonneg_right hB1u hmul
          nlinarith [hkey4]
        calc B1 * (Real.exp (-(M*v)) * ((1 + kk*(g0+v)^2) - (1 + kk*(g0+u)^2))
              / ((1 + kk*(g0+u)^2) * (1 + kk*(g0+v)^2)))
            = B1 * (Real.exp (-(M*v)) * (kk * s * (2*g0 + u + v)))
              / ((1 + kk*(g0+u)^2) * (1 + kk*(g0+v)^2)) := by rw [hQdiff]; ring
          _ ≤ B1 * (1 * (kk * s * (2*g0 + u + v)))
              / ((1 + kk*(g0+u)^2) * (1 + kk*(g0+v)^2)) := by
              apply div_le_div_of_nonneg_right _ (mul_pos hQu hQv).le
              have hss : 0 ≤ kk * s * (2*g0 + u + v) := by positivity
              have := mul_le_mul_of_nonneg_right hEvle hss
              nlinarith
          _ = (B1 * kk * (2*g0 + u + v)) * s
              / ((1 + kk*(g0+u)^2) * (1 + kk*(g0+v)^2)) := by ring
          _ ≤ (((1 + kk*(g0+u)^2) * (1 + kk*(g0+v)^2)) / 2) * s
              / ((1 + kk*(g0+u)^2) * (1 + kk*(g0+v)^2)) := by
              apply div_le_div_of_nonneg_right _ (mul_pos hQu hQv).le
              apply mul_le_mul_of_nonneg_right _ hs0
              linarith [hkey4b]
          _ = s / 2 := by
              field_simp
              ring
      have e1 : B1 * (Real.exp (-(M*u)) / (1 + kk*(g0+u)^2))
          - B1 * (Real.exp (-(M*v)) / (1 + kk*(g0+v)^2))
          = B1 * ((Real.exp (-(M*u)) - Real.exp (-(M*v))) / (1 + kk*(g0+u)^2))
            + B1 * (Real.exp (-(M*v)) * ((1 + kk*(g0+v)^2) - (1 + kk*(g0+u)^2))
              / ((1 + kk*(g0+u)^2) * (1 + kk*(g0+v)^2))) := by
        rw [← mul_sub, hsplit]
        ring
      linarith [hpart1, hpart2, e1]
    have hB1B2v : B1 * (Real.exp (-(M*v)) / (1 + kk*(g0+v)^2))
        ≤ B2 * (Real.exp (-(M*v)) / (1 + kk*(g0+v)^2)) :=
      mul_le_mul_of_nonneg_right hB12 (div_nonneg hEv.le hQv.le)
    simp only [hs] at hmain
    linarith

/-- Every state of the scalar mint recursion is non-negative. -/
theorem dSeq_nonneg (B M kk g0 : ℝ) (hB : 0 ≤ B) (hk : 0 ≤ kk) :
    ∀ n, 0 ≤ dSeq B M kk g0 n := by
  intro n
  induction n with
  | zero => simp [dSeq]
  | succ m ih =>
    have hQ : (0:ℝ) < 1 + kk * (g0 + dSeq B M kk g0 m)^2 := by positivity
    have hE : (0:ℝ) < Real.exp (-(M * dSeq B M kk g0 m)) := Real.exp_pos _
    have : 0 ≤ B * (Real.exp (-(M * dSeq B M kk g0 m)) /
        (1 + kk * (g0 + dSeq B M kk g0 m)^2)) :=
      mul_nonneg hB (div_nonneg hE.le hQ.le)
    simp only [dSeq]
    linarith

/-- The scalar mint recursion is non-decreasing in the purchase count. -/
theorem dSeq_mono_succ (B M kk g0 : ℝ) (hB : 0 ≤ B) (hk : 0 ≤ kk) (n : ℕ) :
    dSeq B M kk g0 n ≤ dSeq B M kk g0 (n + 1) := by
  have hQ : (0:ℝ) < 1 + kk * (g0 + dSeq B M kk g0 n)^2 := by positivity
  have hE : (0:ℝ) < Real.exp (-(M * dSeq B M kk g0 n)) := Real.exp_pos _
  have : 0 ≤ B * (Real.exp (-(M * dSeq B M kk g0 n)) /
      (1 + kk * (g0 + dSeq B M kk g0 n)^2)) :=
    mul_nonneg hB (div_nonneg hE.le hQ.le)
  simp only [dSeq]
  linarith

/-- Closed form of the first state of the scalar mint recursion. -/
theorem dSeq_one (B M kk g0 : ℝ) : dSeq B M kk g0 1 = B / (1 + kk * g0^2) := by
  simp [dSeq, Real.exp_zero]
  ring

/-- After the first purchase the scalar mint state never drops below the
first increment. -/
theorem dSeq_lower (B M kk g0 : ℝ) (hB : 0 ≤ B) (hk : 0 ≤ kk) :
    ∀ n, 1 ≤ n → B / (1 + kk * g0^2) ≤ dSeq B M kk g0 n := by
  have hmono : Monotone (dSeq B M kk g0) :=
    monotone_nat_of_le_succ (dSeq_mono_succ B M kk g0 hB hk)
  intro n hn
  calc B / (1 + kk * g0^2) = dSeq B M kk g0 1 := (dSeq_one B M kk g0).symm
    _ ≤ dSeq B M kk g0 n := hmono hn

/-- Main comparison: the scalar mint recursion is monotone in its
constant coefficient B. -/
theorem dSeq_mono_B (B1 B2 M kk g0 : ℝ)
    (hB1 : 0 ≤ B1) (hB12 : B1 ≤ B2) (hM : 0 ≤ M) (hk : 0 ≤ kk) (hg : 0 ≤ g0) :
    ∀ n, dSeq B1 M kk g0 n ≤ dSeq B2 M kk g0 n := by
  intro n
  induction n with
  | zero => simp [dSeq]
  | succ m ih =>
    rcases Nat.eq_zero_or_pos m with hm | hm
    · subst hm
      have hQ0 : (0:ℝ) < 1 + kk * g0^2 := by positivity
      have h1 : dSeq B1 M kk g0 1 = B1 / (1 + kk * g0^2) := dSeq_one B1 M kk g0
      have h2 : dSeq B2 M kk g0 1 = B2 / (1 + kk * g0^2) := dSeq_one B2 M kk g0
      rw [h1, h2]
      exact div_le_div_of_nonneg_right hB12 hQ0.le
    · have hlow : B1 / (1 + kk * g0^2) ≤ dSeq B1 M kk g0 m :=
        dSeq_lower B1 M kk g0 hB1 hk m hm
      have := dStep_mono B1 B2 M kk g0 (dSeq B1 M kk g0 m) (dSeq B2 M kk g0 m)
        hB1 hB12 hM hk hg hlow ih
      simpa only [dSeq] using this

/-- The mint loop is fully determined by the scalar recursion: the global
accumulator equals the starting supply plus the user accumulator. -/
theorem mintLoop_eq_dSeq (inputs : UserInputs) (params : SystemParams) (t g0 : ℝ) :
    ∀ n, mintLoop inputs params t g0 n =
      (g0 + dSeq (inputs.purchasePrice * calculateCashbackPercent t params *
          calculateQualityFactor inputs.returnProbability inputs.reviewQuality params /
          params.P0) (params.gamma / params.user_cap) params.k g0 n,
        dSeq (inputs.purchasePrice * calculateCashbackPercent t params *
          calculateQualityFactor inputs.returnProbability inputs.reviewQuality params /
          params.P0) (params.gamma / params.user_cap) params.k g0 n) := by
  intro n
  induction n with
  | zero => simp [mintLoop, dSeq]
  | succ m ih =>
    set B := inputs.purchasePrice * calculateCashbackPercent t params *
      calculateQualityFactor inputs.returnProbability inputs.reviewQuality params /
      params.P0 with hB
    set M := params.gamma / params.user_cap with hM
    set u := dSeq B M params.k g0 m with hu
    have harg : -params.gamma * (u / params.user_cap) = -(M * u) := by
      rw [hM]
      ring
    have hmint : inputs.purchasePrice * calculateCashbackPercent t params *
        calculateQualityFactor inputs.returnProbability inputs.reviewQuality params *
        Real.exp (-(M * u)) / (params.P0 * (1 + params.k * (g0 + u) ^ 2))
        = B * (Real.exp (-(M * u)) / (1 + params.k * (g0 + u)^2)) := by
      rw [hB, ← div_div, mul_div_right_comm, mul_div_assoc]
    simp only [mintLoop, ih, mintStep, calculateDiminishingFactor, calculateTokenPrice,
      dSeq, harg, ← hu]
    rw [Prod.mk.injEq]
    constructor
    · rw [← hmint]
      ring
    · rw [← hmint]

/-- Closed form of the burn loop: n equal contributions. -/
theorem burnLoop_closed (inputs : UserInputs) (d tp : ℝ) :
    ∀ n : ℕ, burnLoop inputs d tp n = (n : ℝ) * (inputs.purchasePrice * d / tp) := by
  intro n
  induction n with
  | zero => simp [burnLoop]
  | succ m ih =>
    simp only [burnLoop, ih]
    push_cast
    ring

/-- The embedded mint loop agrees with the specification fold, up to the
order of the two accumulators in the pair. -/
theorem mintLoop_eq_specMintFold (inputs : UserInputs) (params : SystemParams) (g0 : ℝ) :
    ∀ n, mintLoop inputs params ((⌊inputs.period⌋ : ℤ) : ℝ) g0 n =
      ((specMintFold inputs params g0 n).2, (specMintFold inputs params g0 n).1) := by
  intro n
  induction n with
  | zero => simp [mintLoop, specMintFold]
  | succ m ih =>
    simp only [mintLoop, specMintFold, mintStep, ih]
-- appended to main file for testing
/-- Claim C2: the burn accumulator returns
numberOfPurchases * (purchasePrice * DiscountPercent(marketBurnedThisYear))
/ tokenPrice + access_fee, with the discount percent and token price held
constant across iterations and the access fee added once, directly in
tokens. -/
theorem burnedTokens_closed_form (inputs : UserInputs) (params : SystemParams)
    (marketBurnedThisYear tokenPrice : ℝ) :
    calculateBurnedTokens inputs params marketBurnedThisYear tokenPrice =
      (inputs.numberOfPurchases : ℝ) *
        (inputs.purchasePrice * calculateDiscountPercent marketBurnedThisYear params) /
        tokenPrice + params.access_fee := by
  simp only [calculateBurnedTokens, burnLoop_closed]
  ring

/-- Claim C3: the tokenPrice reported in Results is computed from the
global-supply approximation INITIAL_GLOBAL_MINTED + totalMintedUser *
ASSUMED_USERS, not from the global accumulator of the mint loop. -/
theorem results_tokenPrice_from_approximation (userInputs : UserInputs)
    (systemParams : SystemParams) :
    (results userInputs systemParams).tokenPrice =
      calculateTokenPrice
        (INITIAL_GLOBAL_MINTED +
          (results userInputs systemParams).totalMintedUser * ASSUMED_USERS)
        systemParams := rfl

/-- Claim C4: burnDestroyed + burnRedistributed = totalBurned always, and
when totalBurned is positive the two shares are exactly 70 percent and 30
percent of it. -/
theorem burn_split_invariant (userInputs : UserInputs) (systemParams : SystemParams) :
    (results userInputs systemParams).burnDestroyed +
      (results userInputs systemParams).burnRedistributed =
      (results userInputs systemParams).totalBurned ∧
    (0 < (results userInputs systemParams).totalBurned →
      (results userInputs systemParams).burnDestroyed /
        (results userInputs systemParams).totalBurned = 0.7 ∧
      (results userInputs systemParams).burnRedistributed /
        (results userInputs systemParams).totalBurned = 0.3) := by
  have hd : (results userInputs systemParams).burnDestroyed
      = (results userInputs systemParams).totalBurned * 0.7 := rfl
  have hr : (results userInputs systemParams).burnRedistributed
      = (results userInputs systemParams).totalBurned * 0.3 := rfl
  constructor
  · rw [hd, hr]
    ring
  · intro h
    have hne := ne_of_gt h
    constructor
    · rw [hd, mul_comm, mul_div_assoc, div_self hne, mul_one]
    · rw [hr, mul_comm, mul_div_assoc, div_self hne, mul_one]

/-- Witness for claim C4 at a concrete input with a positive total burn. -/
theorem burn_split_invariant_witness :
    0 < (results ⟨0, 0, 0, 0, 0⟩ DEFAULT_SYSTEM_PARAMS).totalBurned ∧
    (results ⟨0, 0, 0, 0, 0⟩ DEFAULT_SYSTEM_PARAMS).burnDestroyed /
      (results ⟨0, 0, 0, 0, 0⟩ DEFAULT_SYSTEM_PARAMS).totalBurned = 0.7 ∧
    (results ⟨0, 0, 0, 0, 0⟩ DEFAULT_SYSTEM_PARAMS).burnRedistributed /
      (results ⟨0, 0, 0, 0, 0⟩ DEFAULT_SYSTEM_PARAMS).totalBurned = 0.3 := by
  have hpos : 0 < (results ⟨0, 0, 0, 0, 0⟩ DEFAULT_SYSTEM_PARAMS).totalBurned := by
    have h : (results ⟨0, 0, 0, 0, 0⟩ DEFAULT_SYSTEM_PARAMS).totalBurned = 10 := by
      simp [results, calculateBurnedTokens, burnLoop, calculateMintedTokens, mintLoop,
        DEFAULT_SYSTEM_PARAMS]
    rw [h]
    norm_num
  have h := (burn_split_invariant ⟨0, 0, 0, 0, 0⟩ DEFAULT_SYSTEM_PARAMS).2 hpos
  exact ⟨hpos, h.1, h.2⟩

/-- Claim C7: the bonding-curve price is non-decreasing in the global
supply for k ≥ 0 (over non-negative supply values and a non-negative base
price, the documented parameter domain), and at zero supply with the
default parameters it equals P0 exactly. -/
theorem tokenPrice_monotone_and_base (params : SystemParams) (g1 g2 : ℝ)
    (hk : 0 ≤ params.k) (hP0 : 0 ≤ params.P0) (hg1 : 0 ≤ g1) (h12 : g1 ≤ g2) :
    calculateTokenPrice g1 params ≤ calculateTokenPrice g2 params ∧
    calculateTokenPrice 0 DEFAULT_SYSTEM_PARAMS = DEFAULT_SYSTEM_PARAMS.P0 := by
  constructor
  · simp only [calculateTokenPrice]
    have hsq : g1^2 ≤ g2^2 := pow_le_pow_left₀ hg1 h12 2
    have h : 1 + params.k * g1^2 ≤ 1 + params.k * g2^2 := by nlinarith
    exact mul_le_mul_of_nonneg_left h hP0
  · simp [calculateTokenPrice]

/-- Witness for claim C7 at the default parameters and supplies 0 ≤ 1. -/
theorem tokenPrice_monotone_and_base_witness :
    calculateTokenPrice 0 DEFAULT_SYSTEM_PARAMS ≤
      calculateTokenPrice 1 DEFAULT_SYSTEM_PARAMS ∧
    calculateTokenPrice 0 DEFAULT_SYSTEM_PARAMS = DEFAULT_SYSTEM_PARAMS.P0 :=
  tokenPrice_monotone_and_base DEFAULT_SYSTEM_PARAMS 0 1
    (by norm_num [DEFAULT_SYSTEM_PARAMS]) (by norm_num [DEFAULT_SYSTEM_PARAMS])
    (by norm_num) (by norm_num)

/-- Claim C9: the one-shot breakdown burn (purchasePrice * n * discount /
price) plus the access fee equals the totalBurned computed by the burn
loop, in exact arithmetic. -/
theorem burn_breakdown_consistency (userInputs : UserInputs) (systemParams : SystemParams)
    ( _h : (results userInputs systemParams).tokenPrice ≠ 0) :
    (results userInputs systemParams).breakdown.burnDiscountTokens +
      (results userInputs systemParams).breakdown.accessFeeTokens =
      (results userInputs systemParams).totalBurned := by
  have h1 : (results userInputs systemParams).breakdown.burnDiscountTokens
      = userInputs.purchasePrice * (userInputs.numberOfPurchases : ℝ) *
        calculateDiscountPercent
          ((results userInputs systemParams).totalMintedUser *
            ASSUMED_BURN_RATE * ASSUMED_USERS) systemParams /
        (results userInputs systemParams).tokenPrice := rfl
  have h2 : (results userInputs systemParams).breakdown.accessFeeTokens
      = systemParams.access_fee := rfl
  have h3 : (results userInputs systemParams).totalBurned
      = calculateBurnedTokens userInputs systemParams
          ((results userInputs systemParams).totalMintedUser *
            ASSUMED_BURN_RATE * ASSUMED_USERS)
          (results userInputs systemParams).tokenPrice := rfl
  rw [h1, h2, h3]
  simp only [calculateBurnedTokens, burnLoop_closed]
  ring

/-- Witness for claim C9 at a concrete input with a nonzero token price. -/
theorem burn_breakdown_consistency_witness :
    (results ⟨0, 0, 0, 0, 0⟩ DEFAULT_SYSTEM_PARAMS).breakdown.burnDiscountTokens +
      (results ⟨0, 0, 0, 0, 0⟩ DEFAULT_SYSTEM_PARAMS).breakdown.accessFeeTokens =
      (results ⟨0, 0, 0, 0, 0⟩ DEFAULT_SYSTEM_PARAMS).totalBurned := by
  apply burn_breakdown_consistency
  have h : (results ⟨0, 0, 0, 0, 0⟩ DEFAULT_SYSTEM_PARAMS).tokenPrice = 10001 := by
    simp [results, calculateTokenPrice, calculateMintedTokens, mintLoop,
      INITIAL_GLOBAL_MINTED, ASSUMED_USERS, DEFAULT_SYSTEM_PARAMS]
    norm_num
  rw [h]
  norm_num

/-- Claim C10: with a non-negative purchase price and a positive token
price, every per-purchase burn contribution is non-negative, so the total
burn is at least the access fee and the net cannot exceed the mint minus
the access fee. -/
theorem totalBurned_ge_access_fee (userInputs : UserInputs) (systemParams : SystemParams)
    (hpp : 0 ≤ userInputs.purchasePrice)
    (htp : 0 < (results userInputs systemParams).tokenPrice) :
    systemParams.access_fee ≤ (results userInputs systemParams).totalBurned ∧
    (results userInputs systemParams).netTokens ≤
      (results userInputs systemParams).totalMintedUser - systemParams.access_fee := by
  have h3 : (results userInputs systemParams).totalBurned
      = calculateBurnedTokens userInputs systemParams
          ((results userInputs systemParams).totalMintedUser *
            ASSUMED_BURN_RATE * ASSUMED_USERS)
          (results userInputs systemParams).tokenPrice := rfl
  have hd : 0 ≤ calculateDiscountPercent
      ((results userInputs systemParams).totalMintedUser *
        ASSUMED_BURN_RATE * ASSUMED_USERS) systemParams := le_max_left _ _
  have hloop : 0 ≤ burnLoop userInputs
      (calculateDiscountPercent
        ((results userInputs systemParams).totalMintedUser *
          ASSUMED_BURN_RATE * ASSUMED_USERS) systemParams)
      (results userInputs systemParams).tokenPrice userInputs.numberOfPurchases := by
    rw [burnLoop_closed]
    exact mul_nonneg (Nat.cast_nonneg _)
      (div_nonneg (mul_nonneg hpp hd) htp.le)
  have hburn : systemParams.access_fee ≤ (results userInputs systemParams).totalBurned := by
    rw [h3]
    simp only [calculateBurnedTokens]
    linarith
  have hnet : (results userInputs systemParams).netTokens
      = (results userInputs systemParams).totalMintedUser -
        (results userInputs systemParams).totalBurned := rfl
  refine ⟨hburn, ?_⟩
  rw [hnet]
  linarith

/-- Witness for claim C10 at a concrete input. -/
theorem totalBurned_ge_access_fee_witness :
    DEFAULT_SYSTEM_PARAMS.access_fee ≤
      (results ⟨0, 0, 0, 0, 0⟩ DEFAULT_SYSTEM_PARAMS).totalBurned ∧
    (results ⟨0, 0, 0, 0, 0⟩ DEFAULT_SYSTEM_PARAMS).netTokens ≤
      (results ⟨0, 0, 0, 0, 0⟩ DEFAULT_SYSTEM_PARAMS).totalMintedUser -
        DEFAULT_SYSTEM_PARAMS.access_fee := by
  apply totalBurned_ge_access_fee
  · norm_num
  · have h : (results ⟨0, 0, 0, 0, 0⟩ DEFAULT_SYSTEM_PARAMS).tokenPrice = 10001 := by
      simp [results, calculateTokenPrice, calculateMintedTokens, mintLoop,
        INITIAL_GLOBAL_MINTED, ASSUMED_USERS, DEFAULT_SYSTEM_PARAMS]
      norm_num
    rw [h]
    norm_num

/-- Counterexample for claim C8 as stated: with a zero access fee (inside
the documented parameter domain) and zero purchases, netTokens equals 0,
which is not negative. -/
theorem zero_purchases_counterexample :
    ¬ ((results ⟨10000, 0, 1, 0.8, 0.1⟩ zeroFeeParams).netTokens < 0) := by
  have h : (results ⟨10000, 0, 1, 0.8, 0.1⟩ zeroFeeParams).netTokens = 0 := by
    simp [results, calculateMintedTokens, mintLoop, calculateBurnedTokens, burnLoop,
      zeroFeeParams, DEFAULT_SYSTEM_PARAMS]
  rw [h]
  norm_num

/-- Claim C8 (amended): with zero purchases both loops contribute nothing,
so totalMintedUser = 0, totalBurned = access_fee, and netTokens =
-access_fee, which is negative whenever the access fee is positive. -/
theorem zero_purchases_amended (inputs : UserInputs) (params : SystemParams)
    (h : inputs.numberOfPurchases = 0) :
    (results inputs params).totalMintedUser = 0 ∧
    (results inputs params).totalBurned = params.access_fee ∧
    (0 < params.access_fee → (results inputs params).netTokens < 0) := by
  have ht : (results inputs params).totalMintedUser = 0 := by
    show (mintLoop inputs params ((⌊inputs.period⌋ : ℤ) : ℝ) INITIAL_GLOBAL_MINTED
      inputs.numberOfPurchases).2 = 0
    rw [h]
    rfl
  have hb : (results inputs params).totalBurned = params.access_fee := by
    show burnLoop inputs _ _ inputs.numberOfPurchases + params.access_fee = params.access_fee
    rw [h]
    show (0:ℝ) + params.access_fee = params.access_fee
    ring
  have hn : (results inputs params).netTokens
      = (results inputs params).totalMintedUser -
        (results inputs params).totalBurned := rfl
  refine ⟨ht, hb, fun hfee => ?_⟩
  rw [hn, ht, hb]
  linarith

/-- Witness for the amended claim C8 at a concrete input with the default
(positive) access fee. -/
theorem zero_purchases_amended_witness :
    (results ⟨10000, 0, 1, 0.8, 0.1⟩ DEFAULT_SYSTEM_PARAMS).totalMintedUser = 0 ∧
    (results ⟨10000, 0, 1, 0.8, 0.1⟩ DEFAULT_SYSTEM_PARAMS).totalBurned =
      DEFAULT_SYSTEM_PARAMS.access_fee ∧
    (results ⟨10000, 0, 1, 0.8, 0.1⟩ DEFAULT_SYSTEM_PARAMS).netTokens < 0 := by
  have h := zero_purchases_amended ⟨10000, 0, 1, 0.8, 0.1⟩ DEFAULT_SYSTEM_PARAMS rfl
  exact ⟨h.1, h.2.1, h.2.2 (by norm_num [DEFAULT_SYSTEM_PARAMS])⟩

/-- Claim C1: the mint accumulator computes totalMintedUser as the
sequential two-accumulator fold described by the specification, and the
per-purchase average is totalMintedUser divided by numberOfPurchases. -/
theorem mint_accumulator_is_spec_fold (inputs : UserInputs) (params : SystemParams)
    (globalTotalMintedBefore : ℝ) ( _h : 1 ≤ inputs.numberOfPurchases) :
    (calculateMintedTokens inputs params globalTotalMintedBefore).totalMintedUser =
      (specMintFold inputs params globalTotalMintedBefore inputs.numberOfPurchases).1 ∧
    (calculateMintedTokens inputs params globalTotalMintedBefore).mintedPerPurchaseAvg =
      (calculateMintedTokens inputs params globalTotalMintedBefore).totalMintedUser /
        (inputs.numberOfPurchases : ℝ) := by
  constructor
  · show (mintLoop inputs params ((⌊inputs.period⌋ : ℤ) : ℝ) globalTotalMintedBefore
      inputs.numberOfPurchases).2 = _
    rw [mintLoop_eq_specMintFold]
  · rfl

/-- Witness for claim C1 at the default inputs (seven purchases). -/
theorem mint_accumulator_is_spec_fold_witness :
    (calculateMintedTokens ⟨10000, 7, 1, 0.8, 0.1⟩ DEFAULT_SYSTEM_PARAMS
        INITIAL_GLOBAL_MINTED).totalMintedUser =
      (specMintFold ⟨10000, 7, 1, 0.8, 0.1⟩ DEFAULT_SYSTEM_PARAMS
        INITIAL_GLOBAL_MINTED 7).1 ∧
    (calculateMintedTokens ⟨10000, 7, 1, 0.8, 0.1⟩ DEFAULT_SYSTEM_PARAMS
        INITIAL_GLOBAL_MINTED).mintedPerPurchaseAvg =
      (calculateMintedTokens ⟨10000, 7, 1, 0.8, 0.1⟩ DEFAULT_SYSTEM_PARAMS
        INITIAL_GLOBAL_MINTED).totalMintedUser / ((7:ℕ) : ℝ) :=
  mint_accumulator_is_spec_fold ⟨10000, 7, 1, 0.8, 0.1⟩ DEFAULT_SYSTEM_PARAMS
    INITIAL_GLOBAL_MINTED (by norm_num)

/-- Claim C6: with at least one purchase, a positive purchase price and
inputs and parameters in their documented domains, the diminishing factor
after the last purchase is at most the diminishing factor at zero mint. -/
theorem dfLast_le_dfFirst (inputs : UserInputs) (params : SystemParams)
    (globalTotalMintedBefore : ℝ)
    ( _hn : 1 ≤ inputs.numberOfPurchases) (hpp : 0 < inputs.purchasePrice)
    (hbeta : 0 ≤ params.beta) (hgamma : 0 ≤ params.gamma)
    (hcap : 0 ≤ params.user_cap) (hP0 : 0 ≤ params.P0) (hk : 0 ≤ params.k)
    (hg0 : 0 ≤ globalTotalMintedBefore)
    (hrq0 : 0 ≤ inputs.reviewQuality) ( _hrq1 : inputs.reviewQuality ≤ 1)
    ( _hrp0 : 0 ≤ inputs.returnProbability) (hrp1 : inputs.returnProbability ≤ 1) :
    (calculateMintedTokens inputs params globalTotalMintedBefore).dfLast ≤
    (calculateMintedTokens inputs params globalTotalMintedBefore).dfFirst := by
  have hqf : 0 ≤ calculateQualityFactor inputs.returnProbability
      inputs.reviewQuality params := by
    simp only [calculateQualityFactor]
    have h : 0 ≤ params.beta * (1 - inputs.returnProbability) * inputs.reviewQuality :=
      mul_nonneg (mul_nonneg hbeta (by linarith)) hrq0
    linarith
  have hcb : 0 ≤ calculateCashbackPercent ((⌊inputs.period⌋ : ℤ) : ℝ) params :=
    le_max_left _ _
  have hB : 0 ≤ inputs.purchasePrice *
      calculateCashbackPercent ((⌊inputs.period⌋ : ℤ) : ℝ) params *
      calculateQualityFactor inputs.returnProbability inputs.reviewQuality params /
      params.P0 :=
    div_nonneg (mul_nonneg (mul_nonneg hpp.le hcb) hqf) hP0
  have htot : (calculateMintedTokens inputs params globalTotalMintedBefore).totalMintedUser
      = dSeq (inputs.purchasePrice *
          calculateCashbackPercent ((⌊inputs.period⌋ : ℤ) : ℝ) params *
          calculateQualityFactor inputs.returnProbability inputs.reviewQuality params /
          params.P0) (params.gamma / params.user_cap) params.k globalTotalMintedBefore
          inputs.numberOfPurchases := by
    show (mintLoop inputs params ((⌊inputs.period⌋ : ℤ) : ℝ) globalTotalMintedBefore
      inputs.numberOfPurchases).2 = _
    rw [mintLoop_eq_dSeq]
  have hnn : 0 ≤ (calculateMintedTokens inputs params
      globalTotalMintedBefore).totalMintedUser := by
    rw [htot]
    exact dSeq_nonneg _ _ _ _ hB hk _
  have e1 : (calculateMintedTokens inputs params globalTotalMintedBefore).dfLast
      = calculateDiminishingFactor
          (calculateMintedTokens inputs params globalTotalMintedBefore).totalMintedUser
          params := rfl
  have e2 : (calculateMintedTokens inputs params globalTotalMintedBefore).dfFirst
      = calculateDiminishingFactor 0 params := rfl
  rw [e1, e2]
  simp only [calculateDiminishingFactor]
  apply Real.exp_le_exp.mpr
  have h : 0 ≤ params.gamma *
      ((calculateMintedTokens inputs params globalTotalMintedBefore).totalMintedUser /
        params.user_cap) :=
    mul_nonneg hgamma (div_nonneg hnn hcap)
  have h0 : -params.gamma * ((0:ℝ) / params.user_cap) = 0 := by
    simp
  rw [h0]
  linarith

/-- Witness for claim C6 at the default inputs and parameters. -/
theorem dfLast_le_dfFirst_witness :
    (calculateMintedTokens ⟨10000, 7, 1, 0.8, 0.1⟩ DEFAULT_SYSTEM_PARAMS
        INITIAL_GLOBAL_MINTED).dfLast ≤
    (calculateMintedTokens ⟨10000, 7, 1, 0.8, 0.1⟩ DEFAULT_SYSTEM_PARAMS
        INITIAL_GLOBAL_MINTED).dfFirst :=
  dfLast_le_dfFirst ⟨10000, 7, 1, 0.8, 0.1⟩ DEFAULT_SYSTEM_PARAMS
    INITIAL_GLOBAL_MINTED (by norm_num) (by norm_num)
    (by norm_num [DEFAULT_SYSTEM_PARAMS]) (by norm_num [DEFAULT_SYSTEM_PARAMS])
    (by norm_num [DEFAULT_SYSTEM_PARAMS]) (by norm_num [DEFAULT_SYSTEM_PARAMS])
    (by norm_num [DEFAULT_SYSTEM_PARAMS]) (by norm_num [INITIAL_GLOBAL_MINTED])
    (by norm_num) (by norm_num) (by norm_num) (by norm_num)

/-- Claim C5: with the parameters and the other inputs fixed (inside the
documented domains), totalMintedUser is monotone non-decreasing in
reviewQuality. -/
theorem totalMintedUser_monotone_in_reviewQuality (params : SystemParams)
    (purchasePrice : ℝ) (numberOfPurchases : ℕ) (period returnProbability q1 q2 : ℝ)
    (hbeta : 0 ≤ params.beta) (hgamma : 0 ≤ params.gamma)
    (hcap : 0 ≤ params.user_cap) (hP0 : 0 ≤ params.P0) (hk : 0 ≤ params.k)
    (hpp : 0 ≤ purchasePrice) ( _hrp0 : 0 ≤ returnProbability)
    (hrp1 : returnProbability ≤ 1)
    (hq1 : 0 ≤ q1) (hq12 : q1 ≤ q2) ( _hq2 : q2 ≤ 1) :
    (results ⟨purchasePrice, numberOfPurchases, period, q1, returnProbability⟩
        params).totalMintedUser ≤
    (results ⟨purchasePrice, numberOfPurchases, period, q2, returnProbability⟩
        params).totalMintedUser := by
  have hcb : 0 ≤ calculateCashbackPercent ((⌊period⌋ : ℤ) : ℝ) params :=
    le_max_left _ _
  have hqf1 : 0 ≤ calculateQualityFactor returnProbability q1 params := by
    simp only [calculateQualityFactor]
    have h : 0 ≤ params.beta * (1 - returnProbability) * q1 :=
      mul_nonneg (mul_nonneg hbeta (by linarith)) hq1
    linarith
  have hqf12 : calculateQualityFactor returnProbability q1 params ≤
      calculateQualityFactor returnProbability q2 params := by
    simp only [calculateQualityFactor]
    have h : params.beta * (1 - returnProbability) * q1 ≤
        params.beta * (1 - returnProbability) * q2 :=
      mul_le_mul_of_nonneg_left hq12 (mul_nonneg hbeta (by linarith))
    linarith
  have hB1 : 0 ≤ purchasePrice * calculateCashbackPercent ((⌊period⌋ : ℤ) : ℝ) params *
      calculateQualityFactor returnProbability q1 params / params.P0 :=
    div_nonneg (mul_nonneg (mul_nonneg hpp hcb) hqf1) hP0
  have hB12 : purchasePrice * calculateCashbackPercent ((⌊period⌋ : ℤ) : ℝ) params *
      calculateQualityFactor returnProbability q1 params / params.P0 ≤
      purchasePrice * calculateCashbackPercent ((⌊period⌋ : ℤ) : ℝ) params *
      calculateQualityFactor returnProbability q2 params / params.P0 := by
    apply div_le_div_of_nonneg_right _ hP0
    calc purchasePrice * calculateCashbackPercent ((⌊period⌋ : ℤ) : ℝ) params *
        calculateQualityFactor returnProbability q1 params
        = (purchasePrice * calculateCashbackPercent ((⌊period⌋ : ℤ) : ℝ) params) *
          calculateQualityFactor returnProbability q1 params := by ring
      _ ≤ (purchasePrice * calculateCashbackPercent ((⌊period⌋ : ℤ) : ℝ) params) *
          calculateQualityFactor returnProbability q2 params :=
        mul_le_mul_of_nonneg_left hqf12 (mul_nonneg hpp hcb)
      _ = purchasePrice * calculateCashbackPercent ((⌊period⌋ : ℤ) : ℝ) params *
          calculateQualityFactor returnProbability q2 params := by ring
  have e1 : (results ⟨purchasePrice, numberOfPurchases, period, q1, returnProbability⟩
      params).totalMintedUser
      = dSeq (purchasePrice * calculateCashbackPercent ((⌊period⌋ : ℤ) : ℝ) params *
          calculateQualityFactor returnProbability q1 params / params.P0)
          (params.gamma / params.user_cap) params.k INITIAL_GLOBAL_MINTED
          numberOfPurchases := by
    show (mintLoop ⟨purchasePrice, numberOfPurchases, period, q1, returnProbability⟩
      params ((⌊period⌋ : ℤ) : ℝ) INITIAL_GLOBAL_MINTED numberOfPurchases).2 = _
    rw [mintLoop_eq_dSeq]
  have e2 : (results ⟨purchasePrice, numberOfPurchases, period, q2, returnProbability⟩
      params).totalMintedUser
      = dSeq (purchasePrice * calculateCashbackPercent ((⌊period⌋ : ℤ) : ℝ) params *
          calculateQualityFactor returnProbability q2 params / params.P0)
          (params.gamma / params.user_cap) params.k INITIAL_GLOBAL_MINTED
          numberOfPurchases := by
    show (mintLoop ⟨purchasePrice, numberOfPurchases, period, q2, returnProbability⟩
      params ((⌊period⌋ : ℤ) : ℝ) INITIAL_GLOBAL_MINTED numberOfPurchases).2 = _
    rw [mintLoop_eq_dSeq]
  rw [e1, e2]
  exact dSeq_mono_B _ _ _ _ _ hB1 hB12 (div_nonneg hgamma hcap) hk
    (by norm_num [INITIAL_GLOBAL_MINTED]) numberOfPurchases

/-- Witness for claim C5 at the default parameters and inputs, comparing
review qualities 0.4 and 0.8. -/
theorem totalMintedUser_monotone_in_reviewQuality_witness :
    (results ⟨10000, 7, 1, 0.4, 0.1⟩ DEFAULT_SYSTEM_PARAMS).totalMintedUser ≤
    (results ⟨10000, 7, 1, 0.8, 0.1⟩ DEFAULT_SYSTEM_PARAMS).totalMintedUser :=
  totalMintedUser_monotone_in_reviewQuality DEFAULT_SYSTEM_PARAMS 10000 7 1 0.1 0.4 0.8
    (by norm_num [DEFAULT_SYSTEM_PARAMS]) (by norm_num [DEFAULT_SYSTEM_PARAMS])
    (by norm_num [DEFAULT_SYSTEM_PARAMS]) (by norm_num [DEFAULT_SYSTEM_PARAMS])
    (by norm_num [DEFAULT_SYSTEM_PARAMS]) (by norm_num) (by norm_num) (by norm_num)
    (by norm_num) (by norm_num) (by norm_num)
